import Mathlib

/-!
Verification of the axon transport library (pub/sub over streams).

The definitions below are a shallow embedding of the source files:
  * `src/unnamed/part_000` (tail section): `SubSocket` — subscription
    registry, pattern compilation (`toRegExp`), inbound message filtering;
  * `src/unnamed/part_001`: `PubSocket.prototype.send` — broadcast /
    targeted send;
  * `src/lib/sockets/sock.js`: base `Socket` — pack (gzip), connect/bind,
    reconnection backoff, error classification, close.

Stateful code is embedded as explicit state passing over a `World` record
carrying the socket state, the pending reconnect timers and an event trace;
each Node-style event handler of the source becomes one step function on
`World`.  External collaborators (the amp frame codec, zlib, the
xcraft-core-transport `Cache`) are modelled at the interface level; each
such model says so in its doc comment.
-/

namespace Axon

/-! ## Pattern compilation (`toRegExp`, part_000 lines 572-577)

`toRegExp` builds `new RegExp('^' + body + '$')` where `body` is the input
string with every regex metacharacter backslash-escaped (the
`escape-regexp` module) and every escaped star `\*` then rewritten to the
capturing group `(.+)`. -/

/-- The characters escaped by the `escape-regexp` module
(`str.replace` over the class `. * + ? = ^ ! : $ \x7b \x7d ( ) | [ ] / \`). -/
def metaChars : List Char :=
  ['.', '*', '+', '?', '=', '^', '!', ':', '$', '\x7b', '\x7d',
   '(', ')', '|', '[', ']', '/', '\\']

/-- Escaping of a single character: metacharacters get a backslash prefix. -/
def escChar (c : Char) : List Char :=
  if c ∈ metaChars then ['\\', c] else [c]

/-- `escape(str)`: escape every regex metacharacter (per character). -/
def escapeRegExp (l : List Char) : List Char :=
  (l.map escChar).flatten

/-- `str.replace(/\\\*/g, '(.+)')`: left-to-right scan replacing each
occurrence of backslash-star by the four characters `(.+)`. -/
def replaceStars : List Char → List Char
  | [] => []
  | [c] => [c]
  | c1 :: c2 :: rest =>
    if c1 = '\\' ∧ c2 = '*' then '(' :: '.' :: '+' :: ')' :: replaceStars rest
    else c1 :: replaceStars (c2 :: rest)

/-- The `source` of the regex built from a string pattern:
`'^' + replaceStars (escape str) + '$'`. -/
def toRegExpSource (s : String) : String :=
  "^" ++ String.mk (replaceStars (escapeRegExp s.data)) ++ "$"

/-- One token of a compiled glob pattern: a star wildcard or a literal
character. -/
inductive GlobToken
  | star
  | lit (c : Char)
deriving DecidableEq

/-- Token view of a string pattern: each `*` is a wildcard, every other
character is a literal (escaping does not change what a literal matches). -/
def compileGlob (s : String) : List GlobToken :=
  s.data.map fun c => if c = '*' then .star else .lit c

/-- Matching semantics of the anchored compiled pattern: literals match
themselves, each star — compiled to `(.+)` — consumes one character and
then any prefix of the remainder, so the rest of the pattern must match
some suffix.  (The regex `.` also excludes the newline character; topics in
this development contain none, so the simpler semantics is faithful.) -/
def globMatch : List GlobToken → List Char → Bool
  | [], t => t.isEmpty
  | .lit c :: p, t =>
    match t with
    | [] => false
    | d :: t' => c = d && globMatch p t'
  | .star :: p, t =>
    match t with
    | [] => false
    | _ :: t' => t'.tails.any fun s => globMatch p s

/-- A JavaScript `RegExp` value: its `source` text together with its
matching function (`re.test`). -/
structure JsRegExp where
  source : String
  test : String → Bool

/-- `re.toString()`: the source between slashes (no flags are ever set). -/
def reToString (r : JsRegExp) : String :=
  "/" ++ r.source ++ "/"

/-- The argument accepted by `toRegExp`: a string or an already-built
`RegExp`. -/
inductive RePattern
  | str (s : String)
  | regex (r : JsRegExp)

/-- `toRegExp` (part_000 lines 572-577): a `RegExp` instance is returned
unchanged; a string is escaped, star-rewritten and anchored. -/
def toRegExp : RePattern → JsRegExp
  | .regex r => r
  | .str s =>
    { source := toRegExpSource s,
      test := fun t => globMatch (compileGlob s) t.data }

/-- Rendering of one source character inside the compiled pattern body:
a star becomes the group `(.+)`, anything else its escaped form. -/
def replTok (c : Char) : List Char :=
  if c = '*' then ['(', '.', '+', ')'] else escChar c

/-! ## SubSocket: subscription registry and inbound filtering
(part_000 lines 432-562) -/

/-- One value of `this.subscriptions[reS]`: the stored compiled matcher and
the owner identifier captured by its `unsub` closure. -/
structure SubEntry where
  regex : JsRegExp
  unsubId : String

/-- The mutable state of a `SubSocket`: the registry keyed by the canonical
compiled-pattern string (`re.toString()`), the subscription counter
`_subscriptionsSize`, and the external matcher cache `_cache` holding
`(id, reS, re)` triples. -/
structure SubSocketSt where
  subscriptions : List (String × SubEntry)
  subscriptionsSize : Nat
  cache : List (String × String × JsRegExp)

/-- A freshly constructed `SubSocket`. -/
def emptySub : SubSocketSt :=
  { subscriptions := [], subscriptionsSize := 0, cache := [] }

/-- JavaScript object property lookup `this.subscriptions[reS]` (entries are
objects, hence always truthy when present). -/
def findEntry (k : String) : List (String × SubEntry) → Option SubEntry
  | [] => none
  | e :: rest => if e.1 = k then some e.2 else findEntry k rest

/-- `ids.length > 1 ? ids[1] : ids[0]` with the default parameter
`ids = ['_']`; the empty list (which JS would map to `undefined`) is sent to
the default sentinel. -/
def subId (ids : List String) : String :=
  match ids with
  | _ :: b :: _ => b
  | [a] => a
  | [] => "_"

/-- Modelled interface of the external `xcraft-core-transport` `Cache`
(spec 4.10: `matches` delegates to the cache and is true iff the topic
matches at least one registered pattern; `set` registers a compiled
pattern under an owner id). -/
def cacheMatches (cache : List (String × String × JsRegExp)) (topic : String) : Bool :=
  cache.any fun e => e.2.2.test topic

/-- `SubSocket.prototype.hasSubscriptions` (lines 452-454): count > 0. -/
def hasSubscriptions (st : SubSocketSt) : Bool :=
  st.subscriptionsSize != 0

/-- `SubSocket.prototype.matches` (lines 464-466), with no `ids` scoping. -/
def subMatches (st : SubSocketSt) (topic : String) : Bool :=
  cacheMatches st.cache topic

/-- `SubSocket.prototype.subscribe` (lines 508-523): compile, key by
`re.toString()`; insert into cache and registry and bump the counter only
when the key is new; return the stored matcher. -/
def subscribe (st : SubSocketSt) (re : RePattern) (ids : List String) :
    SubSocketSt × JsRegExp :=
  let id := subId ids
  let re' := toRegExp re
  let reS := reToString re'
  match findEntry reS st.subscriptions with
  | some entry => (st, entry.regex)
  | none =>
    ({ subscriptions := st.subscriptions ++ [(reS, { regex := re', unsubId := id })],
       subscriptionsSize := st.subscriptionsSize + 1,
       cache := st.cache ++ [(id, reS, re')] }, re')

/-- The closure state of `SubSocket.prototype.onmessage` (lines 476-492):
`var subs = this.hasSubscriptions()` is evaluated once, when the handler is
created for a connection. -/
structure SubHandler where
  subs : Bool

/-- Creation of the per-connection message handler: captures the
subscription emptiness test of that moment. -/
def subOnmessage (st : SubSocketSt) : SubHandler :=
  { subs := hasSubscriptions st }

/-- The body of the handler closure, run when a frame is parsed: under the
captured `subs` flag the first part is the topic and delivery requires
`self.matches(topic)` against the live registry; otherwise every message is
delivered.  Returns whether the message is emitted.  (An empty message
under filtering looks up `msg.args[0] = undefined`; no claim exercises that
branch and it is modelled as a drop.) -/
def subHandleFrame (h : SubHandler) (stAtParse : SubSocketSt)
    (args : List String) : Bool :=
  if h.subs then
    match args.head? with
    | some topic => subMatches stAtParse topic
    | none => false
  else
    true

/-- The delivery rule exactly as claim C1 words it: decided by the
subscription state at the moment the frame is parsed. -/
def claimC1Deliver (stAtParse : SubSocketSt) (args : List String) : Bool :=
  if hasSubscriptions stAtParse then
    match args.head? with
    | some topic => subMatches stAtParse topic
    | none => false
  else
    true

/-- The delivery rule of the amended claim C1: the zero-subscription test is
the one captured when the connection's handler was created; the topic match
runs against the registry at parse time. -/
def amendedC1Deliver (stAtCreate stAtParse : SubSocketSt)
    (args : List String) : Bool :=
  if hasSubscriptions stAtCreate then
    match args.head? with
    | some topic => subMatches stAtParse topic
    | none => false
  else
    true

/-- `SubSocket.prototype.send` (lines 560-562): always throws. -/
def subSend (_args : List String) : Except String Unit :=
  .error "subscribers cannot send messages"

/-! ## Base Socket lifecycle (src/lib/sockets/sock.js)

The stateful client-role machinery — connect, the stream `close` handler,
the reconnect timer, `close()`, and the two error handlers — is embedded as
step functions on a `World` carrying the socket fields, the pending
reconnect timers (`setTimeout` callbacks with their captured variables) and
an append-only trace of the observable actions. -/

/-- The fixed `ignore` list of transient error codes (sock.js lines 21-32). -/
def ignoreList : List String :=
  ["ECONNREFUSED", "ECONNRESET", "ETIMEDOUT", "EHOSTUNREACH", "ENETUNREACH",
   "ENETDOWN", "EPIPE", "ENOENT", "Z_BUF_ERROR", "Z_DATA_ERROR"]

/-- A JavaScript error as classified by the handlers: only its `code`
property matters (absent on plain `Error` objects). -/
structure JsError where
  code : Option String
deriving DecidableEq

/-- `~ignore.indexOf(err.code)` as a boolean: the code is present and in the
ignore list. -/
def errIgnored (e : JsError) : Bool :=
  match e.code with
  | some c => ignoreList.contains c
  | none => false

/-- Socket role, fixed by the first `connect()` / `bind()` call. -/
inductive Role
  | client
  | server
deriving DecidableEq

/-- Configuration keys the client lifecycle reads (`retry timeout` base
backoff and `retry max timeout` cap; defaults 100 and 5000). -/
structure SockSettings where
  retryTimeout : Nat
  retryMaxTimeout : Nat
deriving DecidableEq

/-- Default settings installed by the `Socket` constructor. -/
def defaultSettings : SockSettings :=
  { retryTimeout := 100, retryMaxTimeout := 5000 }

/-- The base socket instance fields used by the claims: `type`, `closing`,
`connected`, the backoff field `retry` (`undefined` until first assigned),
the active connection list `socks`, and whether a server was created. -/
structure SockSt where
  type : Option Role
  closing : Bool
  connected : Bool
  retry : Option Nat
  socks : List Nat
  hasServer : Bool
  settings : SockSettings
deriving DecidableEq

/-- A fresh `Socket` instance. -/
def initialSock (settings : SockSettings) : SockSt :=
  { type := none, closing := false, connected := false, retry := none,
    socks := [], hasServer := false, settings := settings }

/-- Observable actions of the lifecycle code: emitted events, stream
destruction, dial attempts and listener creation. -/
inductive SockEv
  | dialAttempt (sockId : Nat)
  | listen
  | emitSocketClose
  | emitClose
  | emitReconnectAttempt
  | destroySock (sockId : Nat)
  | emitConnect
  | emitSocketError (code : Option String)
  | emitIgnoredError (code : Option String)
  | emitError (code : Option String)
deriving DecidableEq

/-- One pending reconnection `setTimeout` callback: the delay it was
scheduled with, the captured `retry` local and the captured dying stream. -/
structure ReconnectTimer where
  delay : Nat
  retryCaptured : Nat
  sockId : Nat
deriving DecidableEq

/-- The socket state plus pending timers, a fresh-id counter for raw
streams, and the action trace. -/
structure World where
  st : SockSt
  timers : List ReconnectTimer
  nextId : Nat
  trace : List SockEv
deriving DecidableEq

/-- A fresh world around a fresh socket. -/
def initialWorld (settings : SockSettings) : World :=
  { st := initialSock settings, timers := [], nextId := 0, trace := [] }

/-- `Socket.prototype.connect` entry (lines 273-356): throws synchronously —
before any I/O — when the role is already server; otherwise fixes the role
to client and dials a fresh raw stream (the dial is the I/O action; the
stream's event handlers are the step functions below). -/
def connectStep (w : World) : Except String World :=
  if w.st.type = some .server then .error "cannot connect() after bind()"
  else
    .ok { st := { w.st with type := some .client }
          timers := w.timers
          nextId := w.nextId + 1
          trace := w.trace ++ [.dialAttempt w.nextId] }

/-- `connect` as invoked from inside the reconnect timer: the throw branch
is unreachable there because the role is already client. -/
def runConnect (w : World) : World :=
  match connectStep w with
  | .ok w' => w'
  | .error _ => w

/-- `Socket.prototype.bind` entry (lines 413-415): throws synchronously when
the role is already client; otherwise fixes the role to server and creates
the listener. -/
def bindStep (w : World) : Except String World :=
  if w.st.type = some .client then .error "cannot bind() after connect()"
  else
    .ok { w with
          st := { w.st with type := some .server, hasServer := true }
          trace := w.trace ++ [.listen] }

/-- `Math.round(Math.min(max, retry * 1.5))` (line 342).  The doubles
involved are exact, so the value is integer arithmetic: `retry * 1.5` is
`3 * retry / 2`, `Math.round` rounds half away from zero (up, here), and
the branch keeps `min` explicit; `nextRetry_eq_jsRound` below proves this
form equal to the exact rational-arithmetic reading of the JS
expression. -/
def nextRetry (max r : Nat) : Nat :=
  if 3 * r ≤ 2 * max then (3 * r + 1) / 2 else max

/-- `var retry = self.retry || self.get('retry timeout')` (line 333):
`undefined` (and the unreachable 0) fall back to the base delay. -/
def retryOrBase (st : SockSt) : Nat :=
  match st.retry with
  | some r => if r = 0 then st.settings.retryTimeout else r
  | none => st.settings.retryTimeout

/-- The client stream `close` handler (lines 328-344): emit `socket close`,
clear `connected`, drop the stream from the active set; if `closing` emit
the terminal `close` and stop; otherwise schedule a reconnect timer after
the current `retry` delay.  The `closing` test happens here — before
scheduling — and nowhere inside the timer callback. -/
def onStreamClose (w : World) (sockId : Nat) : World :=
  let st := { w.st with connected := false, socks := w.st.socks.erase sockId }
  if w.st.closing then
    { w with st := st, trace := w.trace ++ [.emitSocketClose, .emitClose] }
  else
    let retry := retryOrBase st
    { w with
      st := st
      timers := w.timers ++ [{ delay := retry, retryCaptured := retry, sockId := sockId }]
      trace := w.trace ++ [.emitSocketClose] }

/-- The reconnect `setTimeout` callback (lines 334-343), firing the oldest
pending timer: emit `reconnect attempt`, destroy the old stream, call
`self.connect` again (which dials), then set
`self.retry = Math.round(Math.min(max, retry * 1.5))`.  The callback never
consults `closing`. -/
def fireReconnectTimer (w : World) : World :=
  match w.timers with
  | [] => w
  | t :: rest =>
    let w1 := { w with
                timers := rest
                trace := w.trace ++ [.emitReconnectAttempt, .destroySock t.sockId] }
    let w2 := runConnect w1
    { w2 with st := { w2.st with
        retry := some (nextRetry w2.st.settings.retryMaxTimeout t.retryCaptured) } }

/-- The client stream `connect` event handler (lines 346-353): mark
connected, add the stream to the active set, reset `retry` to the base
timeout, emit `connect`. -/
def onConnectEvent (w : World) (sockId : Nat) : World :=
  { w with
    st := { w.st with
            connected := true
            socks := w.st.socks ++ [sockId]
            retry := some w.st.settings.retryTimeout }
    trace := w.trace ++ [.emitConnect] }

/-- `Socket.prototype.close` (lines 123-128): set `closing`, destroy every
active stream (their `close` events arrive later as separate
`onStreamClose` steps), and close the server when one exists. -/
def closeCall (w : World) : World :=
  { w with
    st := { w.st with closing := true }
    trace := w.trace ++ w.st.socks.map .destroySock }

/-- `Socket.prototype.handleError` (lines 172-179), attached to the
pipeline stages (perf stream, gunzip, parser): destroy the raw stream, emit
`socket error`, then either the fatal `error` or the `ignored error`. -/
def handleError (w : World) (sockId : Nat) (err : JsError) : World :=
  let w1 := { w with trace :=
      w.trace ++ [SockEv.destroySock sockId, SockEv.emitSocketError err.code] }
  if errIgnored err = false then
    { w1 with trace := w1.trace ++ [SockEv.emitError err.code] }
  else
    { w1 with trace := w1.trace ++ [SockEv.emitIgnoredError err.code] }

/-- The raw stream `error` handler installed by
`Socket.prototype.handleErrors` (lines 226-236): emit `socket error`,
remove the stream from the active set, then either the fatal `error` or the
`ignored error`.  No destroy call appears in this path. -/
def handleErrorsOnError (w : World) (sockId : Nat) (err : JsError) : World :=
  let w1 := { w with
              st := { w.st with socks := w.st.socks.erase sockId }
              trace := w.trace ++ [SockEv.emitSocketError err.code] }
  if errIgnored err = false then
    { w1 with trace := w1.trace ++ [SockEv.emitError err.code] }
  else
    { w1 with trace := w1.trace ++ [SockEv.emitIgnoredError err.code] }

/-- One failed dial cycle under repeated immediate disconnects: the stream
closes (scheduling the reconnect timer) and the timer then fires (dialing
again). -/
def failCycle (w : World) (sockId : Nat) : World :=
  fireReconnectTimer (onStreamClose w sockId)

/-- The delays of the successive reconnect timers scheduled by `n`
consecutive failure cycles: each cycle schedules its timer after the
current `retry || base` value. -/
def delaysAfterFailures : Nat → World → List Nat
  | 0, _ => []
  | n + 1, w => retryOrBase w.st :: delaysAfterFailures n (failCycle w 0)

/-! ## Packing and publisher send
(`Socket.prototype.pack` sock.js lines 94-98, `PubSocket.prototype.send`
part_001 lines 37-52, pipeline `Socket.prototype.addSocket` lines 188-211) -/

/-- An active connection as the publisher sees it: the raw stream's
identity and its current `writable` flag. -/
structure Conn where
  id : Nat
  writable : Bool
deriving DecidableEq

/-- One element of the `send(...args)` argument list: application data or a
`net.Socket` connection reference. -/
inductive PubArg
  | data (n : Nat)
  | conn (c : Conn)
deriving DecidableEq

/-- Modelled interface of the external amp codec: one message part on the
wire, as a self-delimiting byte run tagged by the part kind. -/
def encodePart : PubArg → List Nat
  | .data n => [0, n]
  | .conn c => [1, c.id]

/-- Modelled interface of the external amp codec
(`new Message(args).toBuffer()`): the frame is the part count followed by
each part's encoding, in argument order. -/
def encodeFrame (args : List PubArg) : List Nat :=
  args.length :: (args.map encodePart).flatten

/-- Modelled interface of one-shot `zlib.gzipSync`: a self-contained gzip
member carrying its own header bytes, its payload and its trailer.  Calling
it once per frame yields one member per frame; a compressor spanning a
whole stream yields a single member for the concatenation. -/
def gzipSync (b : List Nat) : List Nat :=
  [31, 139, b.length] ++ b ++ [0]

/-- `Socket.prototype.pack` (sock.js lines 94-98): encode the argument list
as one frame and gzip it unless `disable zlib` is set. -/
def pack (disableZlib : Bool) (args : List PubArg) : List Nat :=
  let buffer := encodeFrame args
  if disableZlib then buffer else gzipSync buffer

/-- `args[args.length - 1] instanceof net.Socket`: the targeted connection,
when the last argument is one. -/
def lastArgConn (args : List PubArg) : Option Conn :=
  match args.getLast? with
  | some (.conn c) => some c
  | _ => none

/-- The outcome of one `PubSocket.prototype.send` call: the argument lists
passed to `this.pack` (in order), the performed stream writes as
`(connection id, buffer)` pairs (in order), and `this.socks` afterwards
(the call returns `this`). -/
structure SendResult where
  packedArgs : List (List PubArg)
  writes : List (Nat × List Nat)
  socksAfter : List Conn
deriving DecidableEq

/-- `PubSocket.prototype.send` (part_001 lines 37-52): when the final
argument is a `net.Socket` the loop runs once over it, otherwise over
`this.socks`; `this.pack` runs once before the loop; each iteration writes
the packed buffer iff the current stream is writable. -/
def pubSend (disableZlib : Bool) (socks : List Conn) (args : List PubArg) :
    SendResult :=
  let socket := lastArgConn args
  let len := match socket with
    | some _ => 1
    | none => socks.length
  let buf := pack disableZlib args
  let writes := (List.range len).filterMap fun i =>
    match socket with
    | some c => if c.writable then some (c.id, buf) else none
    | none =>
      match socks[i]? with
      | some s => if s.writable then some (s.id, buf) else none
      | none => none
  { packedArgs := [args], writes := writes, socksAfter := socks }

/-- The bytes a single always-targeted connection receives across a
sequence of publisher sends: the concatenation of the buffers written to it
by each call (the connection being the sole member of `this.socks`). -/
def connectionOutbound (disableZlib : Bool) (c : Conn)
    (sends : List (List PubArg)) : List Nat :=
  (sends.map fun args =>
    ((pubSend disableZlib [c] args).writes.filterMap fun w =>
      if w.1 = c.id then some w.2 else none).flatten).flatten

/-- Modelled from the spec (claim C8's envelope): one streaming compressor
whose state spans the whole encoded frame stream of a connection — a single
compressed member wrapping the concatenation of all frames. -/
def streamCompressSpec (b : List Nat) : List Nat :=
  gzipSync b

/-- Number of registry entries stored under canonical key `k`. -/
def keyCount (k : String) (l : List (String × SubEntry)) : Nat :=
  (l.filter fun e => e.1 == k).length

/-- Recognizer for stream-destruction actions in a trace. -/
def isDestroy : SockEv → Bool
  | .destroySock _ => true
  | _ => false

/-- Recognizer for dial actions in a trace. -/
def isDial : SockEv → Bool
  | .dialAttempt _ => true
  | _ => false

/-- A client world one dial after construction with default settings. -/
def clientWorld0 : World :=
  runConnect (initialWorld defaultSettings)

/-- claim C2 scenario: the dialed stream closes (scheduling a reconnect
timer) and the application then calls `close()` while the timer is still
pending. -/
def c2AfterClose : World :=
  closeCall (onStreamClose clientWorld0 0)

/-- claim C2 scenario: the already pending reconnect timer fires after
`close()`. -/
def c2Fired : World :=
  fireReconnectTimer c2AfterClose

/-- A world whose socket is already in the server role. -/
def serverWorld : World :=
  { initialWorld defaultSettings with
    st := { initialSock defaultSettings with type := some Role.server } }

/-- A world whose socket is already in the client role. -/
def clientRoleWorld : World :=
  { initialWorld defaultSettings with
    st := { initialSock defaultSettings with type := some Role.client } }

/-- claim C6 instance: a string pattern and a prebuilt `RegExp` compiling to
the same canonical string. -/
def c6Pat1 : RePattern := RePattern.str "a"

/-- claim C6 instance: a prebuilt `RegExp` whose source equals the compiled
form of `"a"`. -/
def c6Pat2 : RePattern :=
  RePattern.regex { source := "^a$", test := fun _ => false }

/-- claim C4 instance: three active connections, the middle one not
writable. -/
def c4Socks : List Conn :=
  [{ id := 0, writable := true }, { id := 1, writable := false },
   { id := 2, writable := true }]

/-- One receive-pipeline stage attached by `Socket.prototype.addSocket`. -/
inductive Stage
  | perf
  | gunzip
  | parser
deriving DecidableEq

/-- The per-connection receive pipeline built by `addSocket` (sock.js lines
188-211): `sock.pipe(perf).pipe(gunzip).pipe(parser)`, the gunzip stage
present iff `disable zlib` is false. -/
def pipelineStages (disableZlib : Bool) : List Stage :=
  if disableZlib then [.perf, .parser] else [.perf, .gunzip, .parser]

/-! ## Theorems -/

/-! ### Pattern compilation lemmas -/

lemma replaceStars_cons_cons (c1 c2 : Char) (r : List Char) :
    replaceStars (c1 :: c2 :: r) =
      if c1 = '\\' ∧ c2 = '*' then '(' :: '.' :: '+' :: ')' :: replaceStars r
      else c1 :: replaceStars (c2 :: r) := rfl

lemma head_escapeRegExp (l : List Char) :
    (escapeRegExp l).head? ≠ some '*' := by
  cases l with
  | nil => simp [escapeRegExp]
  | cons c l' =>
    by_cases h : c ∈ metaChars
    · simp [escapeRegExp, escChar, h]
    · simp [escapeRegExp, escChar, h]
      intro hc
      exact h (by rw [hc]; decide)

lemma replaceStars_cons_of_head (c : Char) (rest : List Char)
    (hc : c = '\\' → rest.head? ≠ some '*') :
    replaceStars (c :: rest) = c :: replaceStars rest := by
  cases rest with
  | nil => rfl
  | cons d rs =>
    rw [replaceStars_cons_cons]
    rw [if_neg]
    rintro ⟨h1, h2⟩
    exact hc h1 (by simp [h2])

lemma replaceStars_escChar (c : Char) (rest : List Char)
    (h : rest.head? ≠ some '*') :
    replaceStars (escChar c ++ rest) = replTok c ++ replaceStars rest := by
  by_cases hm : c ∈ metaChars
  · have e1 : escChar c = ['\\', c] := by simp [escChar, hm]
    by_cases hc : c = '*'
    · subst hc
      rw [e1]
      simp only [List.cons_append, List.nil_append]
      rw [replaceStars_cons_cons, if_pos ⟨rfl, rfl⟩]
      simp [replTok]
    · rw [e1]
      simp only [List.cons_append, List.nil_append]
      rw [replaceStars_cons_cons, if_neg (by simp [hc])]
      rw [replaceStars_cons_of_head c rest (fun _ => h)]
      simp [replTok, hc, escChar, hm]
  · have e1 : escChar c = [c] := by simp [escChar, hm]
    have hback : c ≠ '\\' := fun hh => hm (by rw [hh]; decide)
    have hstar : c ≠ '*' := fun hh => hm (by rw [hh]; decide)
    rw [e1]
    simp only [List.cons_append, List.nil_append]
    rw [replaceStars_cons_of_head c rest (fun hh => absurd hh hback)]
    simp [replTok, hstar, escChar, hm]

lemma replaceStars_escapeRegExp (l : List Char) :
    replaceStars (escapeRegExp l) = (l.map replTok).flatten := by
  induction l with
  | nil => rfl
  | cons c l' ih =>
    have e : escapeRegExp (c :: l') = escChar c ++ escapeRegExp l' := by
      simp [escapeRegExp]
    rw [e, replaceStars_escChar c _ (head_escapeRegExp l'), ih]
    simp

/-- C10: every `*` in a string pattern compiles to the capturing group
`(.+)` — which requires at least one character — and the compiled source is
anchored with `^` and `$`; hence a topic that would force a wildcard to
match the empty string does not match: `"orders."` fails against pattern
`"orders.*"` while `"orders.created"` matches; and a `RegExp` passed as the
pattern is used unchanged. -/
theorem claimC10 :
    (∀ s : String, (toRegExp (.str s)).source =
      "^" ++ String.mk ((s.data.map replTok).flatten) ++ "$")
    ∧ String.mk (replTok '*') = "(.+)"
    ∧ (∀ p : List GlobToken, globMatch (GlobToken.star :: p) [] = false)
    ∧ (toRegExp (.str "orders.*")).source = "^orders\\.(.+)$"
    ∧ (toRegExp (.str "orders.*")).test "orders." = false
    ∧ (toRegExp (.str "orders.*")).test "orders.created" = true
    ∧ (∀ r : JsRegExp, toRegExp (.regex r) = r) := by
  refine ⟨?_, by decide, fun p => rfl, by decide, by decide, by decide,
    fun r => rfl⟩
  intro s
  show toRegExpSource s = _
  unfold toRegExpSource
  rw [replaceStars_escapeRegExp]

/-! ### Claim C1: inbound filtering and the captured subscription flag -/

/-- C1 counterexample: a subscriber with zero subscriptions when the
connection's handler was created, and one subscription (pattern `"a"`) at
parse time, emits a message with topic `"b"` although the claim — reading
the state at parse time — says it is dropped. -/
theorem counterC1 :
    ¬ (subHandleFrame (subOnmessage emptySub)
        (subscribe emptySub (.str "a") ["_"]).1 ["b"] =
      claimC1Deliver (subscribe emptySub (.str "a") ["_"]).1 ["b"]) := by
  decide

/-- C1 amended: delivery is decided by the subscription state captured when
the connection's message handler was created — zero subscriptions then
means every message on that connection is emitted — while the topic match
of the filtering branch runs against the registry live at parse time. -/
theorem claimC1 (stAtCreate stAtParse : SubSocketSt) (args : List String) :
    subHandleFrame (subOnmessage stAtCreate) stAtParse args =
      amendedC1Deliver stAtCreate stAtParse args := rfl

/-! ### Claim C6: registry keyed by the canonical compiled-pattern string -/

lemma findEntry_cons (k : String) (e : String × SubEntry)
    (rest : List (String × SubEntry)) :
    findEntry k (e :: rest) =
      if e.1 = k then some e.2 else findEntry k rest := rfl

lemma findEntry_append_right (k : String) (l1 l2 : List (String × SubEntry))
    (h : findEntry k l1 = none) :
    findEntry k (l1 ++ l2) = findEntry k l2 := by
  induction l1 with
  | nil => rfl
  | cons e r ih =>
    rw [findEntry_cons] at h
    by_cases he : e.1 = k
    · rw [if_pos he] at h
      exact absurd h (by simp)
    · rw [if_neg he] at h
      rw [List.cons_append, findEntry_cons, if_neg he]
      exact ih h

lemma findEntry_none_keyCount (k : String) (l : List (String × SubEntry))
    (h : findEntry k l = none) : keyCount k l = 0 := by
  induction l with
  | nil => rfl
  | cons e r ih =>
    rw [findEntry_cons] at h
    by_cases he : e.1 = k
    · rw [if_pos he] at h
      exact absurd h (by simp)
    · rw [if_neg he] at h
      simp only [keyCount, List.filter_cons]
      rw [if_neg (by simpa using he)]
      exact ih h

lemma keyCount_append (k : String) (l1 l2 : List (String × SubEntry)) :
    keyCount k (l1 ++ l2) = keyCount k l1 + keyCount k l2 := by
  simp [keyCount, List.filter_append]

lemma subscribe_of_found (st : SubSocketSt) (re : RePattern)
    (ids : List String) (e : SubEntry)
    (h : findEntry (reToString (toRegExp re)) st.subscriptions = some e) :
    subscribe st re ids = (st, e.regex) := by
  simp only [subscribe]
  rw [h]

lemma subscribe_of_new (st : SubSocketSt) (re : RePattern)
    (ids : List String)
    (h : findEntry (reToString (toRegExp re)) st.subscriptions = none) :
    subscribe st re ids =
      ({ subscriptions := st.subscriptions ++
           [(reToString (toRegExp re),
             { regex := toRegExp re, unsubId := subId ids })],
         subscriptionsSize := st.subscriptionsSize + 1,
         cache := st.cache ++
           [(subId ids, reToString (toRegExp re), toRegExp re)] },
       toRegExp re) := by
  simp only [subscribe]
  rw [h]

/-- C6: two subscribe calls whose patterns compile to the same canonical
string create at most one registry entry for it, bump the count at most
once, and the second call changes nothing and returns the already-stored
matcher object. -/
theorem claimC6 (st : SubSocketSt) (p1 p2 : RePattern)
    (ids1 ids2 : List String)
    (h : reToString (toRegExp p1) = reToString (toRegExp p2)) :
    (subscribe (subscribe st p1 ids1).1 p2 ids2).1 = (subscribe st p1 ids1).1
    ∧ (subscribe (subscribe st p1 ids1).1 p2 ids2).2 = (subscribe st p1 ids1).2
    ∧ (subscribe st p1 ids1).1.subscriptionsSize ≤ st.subscriptionsSize + 1
    ∧ (findEntry (reToString (toRegExp p1)) st.subscriptions = none →
        keyCount (reToString (toRegExp p1))
          (subscribe (subscribe st p1 ids1).1 p2 ids2).1.subscriptions = 1) := by
  cases hfe : findEntry (reToString (toRegExp p1)) st.subscriptions with
  | some e =>
    have hfe2 : findEntry (reToString (toRegExp p2)) st.subscriptions =
        some e := h ▸ hfe
    have h1 := subscribe_of_found st p1 ids1 e hfe
    have h2 := subscribe_of_found st p2 ids2 e hfe2
    refine ⟨?_, ?_, ?_, ?_⟩
    · rw [h1]
      show (subscribe st p2 ids2).1 = st
      rw [h2]
    · rw [h1]
      show (subscribe st p2 ids2).2 = e.regex
      rw [h2]
    · rw [h1]
      exact Nat.le_succ _
    · intro hn
      exact absurd hn (by simp)
  | none =>
    have h1 := subscribe_of_new st p1 ids1 hfe
    have hfind : findEntry (reToString (toRegExp p2))
        ((subscribe st p1 ids1).1).subscriptions =
        some { regex := toRegExp p1, unsubId := subId ids1 } := by
      rw [h1]
      show findEntry (reToString (toRegExp p2))
        (st.subscriptions ++
          [(reToString (toRegExp p1),
            { regex := toRegExp p1, unsubId := subId ids1 })]) = _
      rw [← h, findEntry_append_right _ _ _ hfe, findEntry_cons, if_pos rfl]
    have h2 := subscribe_of_found ((subscribe st p1 ids1).1) p2 ids2 _ hfind
    refine ⟨?_, ?_, ?_, ?_⟩
    · rw [h2]
    · rw [h2]
      rw [h1]
    · rw [h1]
    · intro _
      rw [h2, h1]
      show keyCount (reToString (toRegExp p1))
        (st.subscriptions ++
          [(reToString (toRegExp p1),
            { regex := toRegExp p1, unsubId := subId ids1 })]) = 1
      rw [keyCount_append, findEntry_none_keyCount _ _ hfe]
      simp [keyCount]

/-- C6 witness: the literal string `"a"` and a prebuilt `RegExp` with source
`^a$` collapse to one canonical key; the theorem applies to them from the
empty registry. -/
theorem claimC6Witness :
    (subscribe (subscribe emptySub c6Pat1 ["_"]).1 c6Pat2 ["x"]).1 =
      (subscribe emptySub c6Pat1 ["_"]).1
    ∧ (subscribe (subscribe emptySub c6Pat1 ["_"]).1 c6Pat2 ["x"]).2 =
      (subscribe emptySub c6Pat1 ["_"]).2
    ∧ (subscribe emptySub c6Pat1 ["_"]).1.subscriptionsSize ≤
        emptySub.subscriptionsSize + 1
    ∧ (findEntry (reToString (toRegExp c6Pat1)) emptySub.subscriptions = none →
        keyCount (reToString (toRegExp c6Pat1))
          (subscribe (subscribe emptySub c6Pat1 ["_"]).1 c6Pat2
            ["x"]).1.subscriptions = 1) :=
  claimC6 emptySub c6Pat1 c6Pat2 ["_"] ["x"] (by decide)

/-! ### Claim C2: close finality and the pending reconnect timer -/

/-- C2 counterexample: the dialed stream closes (a reconnect timer becomes
pending), the application calls `close()` — so `closing` is set — and the
already pending timer then still fires a new dial attempt; the claim says
no dial ever happens after `close()`. -/
theorem counterC2 :
    c2AfterClose.st.closing = true
    ∧ ¬ (∀ ev ∈ c2Fired.trace.drop c2AfterClose.trace.length,
          isDial ev = false) := by
  constructor
  · decide
  · decide

/-- C2 amended: `closing` is consulted only when a stream's close event
fires — if set at that moment no reconnect timer is scheduled and the
terminal close is emitted — but a reconnect timer already pending when
`close()` is called still fires exactly one further dial attempt
(the timer callback never rechecks `closing`). -/
theorem claimC2 :
    (∀ (w : World) (id : Nat), w.st.closing = true →
      (onStreamClose w id).timers = w.timers
      ∧ (onStreamClose w id).trace =
          w.trace ++ [SockEv.emitSocketClose, SockEv.emitClose])
    ∧ (∀ (w : World) (t : ReconnectTimer) (rest : List ReconnectTimer),
        w.timers = t :: rest → w.st.type ≠ some Role.server →
        (fireReconnectTimer w).trace =
          w.trace ++ [SockEv.emitReconnectAttempt, SockEv.destroySock t.sockId,
            SockEv.dialAttempt w.nextId]) := by
  constructor
  · intro w id h
    constructor <;> simp [onStreamClose, h]
  · intro w t rest ht hts
    simp [fireReconnectTimer, ht, runConnect, connectStep, hts]

/-- C2 witness: the amended behaviors at the concrete post-`close()`
world. -/
theorem claimC2Witness :
    ((onStreamClose c2AfterClose 0).timers = c2AfterClose.timers
      ∧ (onStreamClose c2AfterClose 0).trace =
          c2AfterClose.trace ++ [SockEv.emitSocketClose, SockEv.emitClose])
    ∧ (fireReconnectTimer c2AfterClose).trace =
        c2AfterClose.trace ++ [SockEv.emitReconnectAttempt,
          SockEv.destroySock 0, SockEv.dialAttempt c2AfterClose.nextId] :=
  ⟨claimC2.1 c2AfterClose 0 (by decide),
   claimC2.2 c2AfterClose { delay := 100, retryCaptured := 100, sockId := 0 }
     [] (by decide) (by decide)⟩

/-! ### Claim C3: reconnection backoff -/

lemma nextRetry_eq_jsRound (max r : Nat) :
    (nextRetry max r : ℤ) = ⌊min (max : ℚ) ((r : ℚ) * (3 / 2)) + 1 / 2⌋ := by
  unfold nextRetry
  by_cases h : 3 * r ≤ 2 * max
  · rw [if_pos h]
    have hmin : min (max : ℚ) ((r : ℚ) * (3 / 2)) = (r : ℚ) * (3 / 2) := by
      rw [min_eq_right]
      rw [show ((r : ℚ) * (3 / 2)) = ((3 * r : ℕ) : ℚ) / 2 by push_cast; ring]
      rw [div_le_iff₀ (by norm_num : (0 : ℚ) < 2)]
      exact_mod_cast (by omega : 3 * r ≤ max * 2)
    rw [hmin]
    rw [show ((r : ℚ) * (3 / 2) + 1 / 2) = ((3 * r + 1 : ℕ) : ℚ) / 2 by
      push_cast; ring]
    rw [eq_comm, Int.floor_eq_iff]
    constructor
    · push_cast
      rw [le_div_iff₀ (by norm_num : (0 : ℚ) < 2)]
      exact_mod_cast (by omega : (3 * r + 1) / 2 * 2 ≤ 3 * r + 1)
    · push_cast
      rw [div_lt_iff₀ (by norm_num : (0 : ℚ) < 2)]
      exact_mod_cast (by omega : 3 * r + 1 < ((3 * r + 1) / 2 + 1) * 2)
  · rw [if_neg h]
    have hmin : min (max : ℚ) ((r : ℚ) * (3 / 2)) = (max : ℚ) := by
      rw [min_eq_left]
      rw [show ((r : ℚ) * (3 / 2)) = ((3 * r : ℕ) : ℚ) / 2 by push_cast; ring]
      rw [le_div_iff₀ (by norm_num : (0 : ℚ) < 2)]
      exact_mod_cast (by omega : max * 2 ≤ 3 * r)
    rw [hmin, eq_comm, Int.floor_eq_iff]
    constructor
    · push_cast
      linarith
    · push_cast
      linarith

lemma nextRetry_le (max r : Nat) : nextRetry max r ≤ max := by
  unfold nextRetry
  split <;> omega

lemma onStreamClose_settings (w : World) (id : Nat) :
    (onStreamClose w id).st.settings = w.st.settings := by
  simp only [onStreamClose]
  split <;> rfl

lemma onStreamClose_retry (w : World) (id : Nat) :
    (onStreamClose w id).st.retry = w.st.retry := by
  simp only [onStreamClose]
  split <;> rfl

lemma runConnect_settings (w : World) :
    (runConnect w).st.settings = w.st.settings := by
  by_cases h : w.st.type = some Role.server
  · simp [runConnect, connectStep, h]
  · simp [runConnect, connectStep, h]

lemma fireReconnectTimer_nil (w : World) (h : w.timers = []) :
    fireReconnectTimer w = w := by
  simp [fireReconnectTimer, h]

lemma fireReconnectTimer_cons_retry (w : World) (t : ReconnectTimer)
    (rest : List ReconnectTimer) (h : w.timers = t :: rest) :
    (fireReconnectTimer w).st.retry =
      some (nextRetry w.st.settings.retryMaxTimeout t.retryCaptured) := by
  simp only [fireReconnectTimer, h]
  rw [runConnect_settings]

lemma fireReconnectTimer_settings (w : World) :
    (fireReconnectTimer w).st.settings = w.st.settings := by
  cases h : w.timers with
  | nil => rw [fireReconnectTimer_nil w h]
  | cons t rest =>
    simp only [fireReconnectTimer, h]
    rw [runConnect_settings]

lemma failCycle_settings (w : World) (id : Nat) :
    (failCycle w id).st.settings = w.st.settings := by
  unfold failCycle
  rw [fireReconnectTimer_settings, onStreamClose_settings]

lemma retryOrBase_le (st : SockSt)
    (hbase : st.settings.retryTimeout ≤ st.settings.retryMaxTimeout)
    (hr : ∀ r, st.retry = some r → r ≤ st.settings.retryMaxTimeout) :
    retryOrBase st ≤ st.settings.retryMaxTimeout := by
  unfold retryOrBase
  cases h : st.retry with
  | none => exact hbase
  | some r =>
    show (if r = 0 then st.settings.retryTimeout else r) ≤
      st.settings.retryMaxTimeout
    by_cases h0 : r = 0
    · rw [if_pos h0]
      exact hbase
    · rw [if_neg h0]
      exact hr r h

lemma failCycle_retry_bounded (w : World) (id : Nat)
    (hr : ∀ r, w.st.retry = some r → r ≤ w.st.settings.retryMaxTimeout) :
    ∀ r, (failCycle w id).st.retry = some r →
      r ≤ (failCycle w id).st.settings.retryMaxTimeout := by
  intro r hrr
  rw [failCycle_settings]
  unfold failCycle at hrr
  cases ht : (onStreamClose w id).timers with
  | nil =>
    rw [fireReconnectTimer_nil _ ht, onStreamClose_retry] at hrr
    exact hr r hrr
  | cons t rest =>
    rw [fireReconnectTimer_cons_retry _ t rest ht,
      onStreamClose_settings] at hrr
    cases hrr
    exact nextRetry_le _ _

lemma delays_le (n : Nat) : ∀ (w : World),
    w.st.settings.retryTimeout ≤ w.st.settings.retryMaxTimeout →
    (∀ r, w.st.retry = some r → r ≤ w.st.settings.retryMaxTimeout) →
    ∀ d ∈ delaysAfterFailures n w, d ≤ w.st.settings.retryMaxTimeout := by
  induction n with
  | zero =>
    intro w _ _ d hd
    simp [delaysAfterFailures] at hd
  | succ n ih =>
    intro w hbase hr d hd
    simp only [delaysAfterFailures, List.mem_cons] at hd
    rcases hd with hd | hd
    · subst hd
      exact retryOrBase_le w.st hbase hr
    · have hset := failCycle_settings w 0
      have h1 : (failCycle w 0).st.settings.retryTimeout ≤
          (failCycle w 0).st.settings.retryMaxTimeout := by
        rw [hset]
        exact hbase
      have h2 := failCycle_retry_bounded w 0 hr
      have h3 := ih (failCycle w 0) h1 h2 d hd
      rw [hset] at h3
      exact h3

lemma retryOrBase_some (st : SockSt) (r : Nat) (h : st.retry = some r) :
    retryOrBase st = if r = 0 then st.settings.retryTimeout else r := by
  unfold retryOrBase
  rw [h]

/-- C3: with the default base 100 and cap 5000, consecutive failure cycles
from the first dial produce the timer delays 100, 150, 225, 338 (the
claim's 337-ish: the exact value 337.5 rounds to 338); every scheduled
delay stays at or below the cap; a successful connect resets `retry` to the
base so the next delay is the base again; each close without `closing` set
schedules the reconnect after the current `retry || base` value, and the
timer updates `retry` to `Math.round(Math.min(max, retry * 1.5))`, whose
exact rational value `nextRetry` computes. -/
theorem claimC3 :
    delaysAfterFailures 4 clientWorld0 = [100, 150, 225, 338]
    ∧ (∀ n d, d ∈ delaysAfterFailures n clientWorld0 → d ≤ 5000)
    ∧ (∀ (w : World) (id : Nat),
        (onConnectEvent w id).st.retry = some w.st.settings.retryTimeout
        ∧ retryOrBase (onConnectEvent w id).st = w.st.settings.retryTimeout)
    ∧ (∀ (w : World) (id : Nat), w.st.closing = false →
        (onStreamClose w id).timers = w.timers ++
          [{ delay := retryOrBase w.st, retryCaptured := retryOrBase w.st,
             sockId := id }])
    ∧ (∀ (w : World) (t : ReconnectTimer) (rest : List ReconnectTimer),
        w.timers = t :: rest →
        (fireReconnectTimer w).st.retry =
          some (nextRetry w.st.settings.retryMaxTimeout t.retryCaptured))
    ∧ (∀ m r : Nat, (nextRetry m r : ℤ) =
        ⌊min (m : ℚ) ((r : ℚ) * (3 / 2)) + 1 / 2⌋) := by
  refine ⟨by decide, ?_, ?_, ?_, fireReconnectTimer_cons_retry, nextRetry_eq_jsRound⟩
  · intro n d hd
    have hr : ∀ r, clientWorld0.st.retry = some r →
        r ≤ clientWorld0.st.settings.retryMaxTimeout := by
      intro r h
      have hn : clientWorld0.st.retry = none := by decide
      rw [hn] at h
      exact absurd h (by simp)
    exact delays_le n clientWorld0 (by decide) hr d hd
  · intro w id
    refine ⟨rfl, ?_⟩
    rw [retryOrBase_some _ w.st.settings.retryTimeout rfl]
    split <;> rfl
  · intro w id h
    simp [onStreamClose, h]
    rfl

/-- C3 witness: the invariant applies to the fourth concrete delay; the
scheduling shape applies to the first stream close. -/
theorem claimC3Witness :
    338 ≤ 5000
    ∧ (onStreamClose clientWorld0 0).timers = clientWorld0.timers ++
        [{ delay := retryOrBase clientWorld0.st,
           retryCaptured := retryOrBase clientWorld0.st, sockId := 0 }] :=
  ⟨claimC3.2.1 4 338 (by decide),
   claimC3.2.2.2.1 clientWorld0 0 (by decide)⟩

/-! ### Claim C5: stream-level error handling -/

/-- C5 counterexample: an error event on the raw stream (handled by the
`handleErrors` listener) with the unrecognized code `EFOO` emits
`socket error` and the fatal `error` but never destroys the stream, though
the claim requires every stream-level error path to force-close it. -/
theorem counterC5 :
    (handleErrorsOnError (initialWorld defaultSettings) 0
        { code := some "EFOO" }).trace =
      [SockEv.emitSocketError (some "EFOO"), SockEv.emitError (some "EFOO")]
    ∧ ¬ ((handleErrorsOnError (initialWorld defaultSettings) 0
        { code := some "EFOO" }).trace.any isDestroy = true) := by
  constructor
  · decide
  · decide

/-- C5 amended: a pipeline-stage error (`handleError`) destroys the stream,
emits `socket error` and then exactly one of `ignored error` (code in the
fixed ignorable set) or the fatal `error`; a raw-stream error event
(`handleErrors`) emits the same notifications in the same order but removes
the connection from the active set instead of destroying the stream. -/
theorem claimC5 (w : World) (sockId : Nat) (err : JsError) :
    (handleError w sockId err).trace =
      w.trace ++ [SockEv.destroySock sockId, SockEv.emitSocketError err.code]
        ++ (if errIgnored err then [SockEv.emitIgnoredError err.code]
            else [SockEv.emitError err.code])
    ∧ (handleErrorsOnError w sockId err).trace =
      w.trace ++ [SockEv.emitSocketError err.code]
        ++ (if errIgnored err then [SockEv.emitIgnoredError err.code]
            else [SockEv.emitError err.code])
    ∧ (handleErrorsOnError w sockId err).st.socks = w.st.socks.erase sockId
    ∧ (errIgnored err = true ↔ ∃ c, err.code = some c ∧ c ∈ ignoreList) := by
  refine ⟨?_, ?_, ?_, ?_⟩
  · by_cases hig : errIgnored err = true
    · simp [handleError, hig]
    · simp only [Bool.not_eq_true] at hig
      simp [handleError, hig]
  · by_cases hig : errIgnored err = true
    · simp [handleErrorsOnError, hig]
    · simp only [Bool.not_eq_true] at hig
      simp [handleErrorsOnError, hig]
  · by_cases hig : errIgnored err = false <;> simp [handleErrorsOnError, hig]
  · cases hc : err.code with
    | none => simp [errIgnored, hc]
    | some c => simp [errIgnored, hc]

/-! ### Claim C7: synchronous usage errors -/

/-- C7: `connect` on a server-role socket and `bind` on a client-role
socket throw synchronously before any I/O action, and `send` on a
subscriber always throws. -/
theorem claimC7 :
    (∀ w : World, w.st.type = some Role.server →
      connectStep w = .error "cannot connect() after bind()")
    ∧ (∀ w : World, w.st.type = some Role.client →
      bindStep w = .error "cannot bind() after connect()")
    ∧ (∀ args : List String,
      subSend args = .error "subscribers cannot send messages") := by
  refine ⟨fun w h => ?_, fun w h => ?_, fun args => rfl⟩
  · simp [connectStep, h]
  · simp [bindStep, h]

/-- C7 witness: the three usage errors at concrete inputs. -/
theorem claimC7Witness :
    connectStep serverWorld = .error "cannot connect() after bind()"
    ∧ bindStep clientRoleWorld = .error "cannot bind() after connect()"
    ∧ subSend ["x"] = .error "subscribers cannot send messages" :=
  ⟨claimC7.1 serverWorld (by decide), claimC7.2.1 clientRoleWorld (by decide),
   claimC7.2.2 ["x"]⟩

/-! ### Claim C4: publisher broadcast and targeted send -/

lemma sendLoopWrites (socks : List Conn) (buf : List Nat) :
    ((List.range socks.length).filterMap fun i =>
      match socks[i]? with
      | some s => if s.writable then some (s.id, buf) else none
      | none => none) =
    (socks.filter fun s => s.writable).map fun s => (s.id, buf) := by
  induction socks with
  | nil => rfl
  | cons c rest ih =>
    rw [List.length_cons, List.range_succ_eq_map, List.filterMap_cons,
      List.filterMap_map]
    have he : ((fun i => match (c :: rest)[i]? with
        | some s => if s.writable then some (s.id, buf) else none
        | none => none) ∘ Nat.succ) = fun i => match rest[i]? with
        | some s => if s.writable then some (s.id, buf) else none
        | none => none := by
      funext i
      simp [Function.comp]
    rw [he, ih]
    by_cases hw : c.writable
    · simp [List.filter_cons, hw]
    · simp [List.filter_cons, hw]

/-- C4: when the last argument is a live (writable) connection the packed
buffer is written to it alone (a non-writable target is skipped like any
other); otherwise it is written to exactly the writable members of
`this.socks`, in order; `this.pack` runs exactly once, on the full argument
list; and `send` returns the socket with its connection set untouched. -/
theorem claimC4 (dz : Bool) (socks : List Conn) (args : List PubArg) :
    (∀ c, lastArgConn args = some c →
      (pubSend dz socks args).writes =
        (if c.writable then [(c.id, pack dz args)] else []))
    ∧ (lastArgConn args = none →
      (pubSend dz socks args).writes =
        (socks.filter fun s => s.writable).map fun s => (s.id, pack dz args))
    ∧ (pubSend dz socks args).packedArgs = [args]
    ∧ (pubSend dz socks args).socksAfter = socks := by
  refine ⟨?_, ?_, rfl, rfl⟩
  · intro c hc
    simp only [pubSend, hc]
    by_cases hw : c.writable
    · simp [hw, List.range_succ]
    · simp [hw, List.range_succ]
  · intro hc
    simp only [pubSend, hc]
    exact sendLoopWrites socks (pack dz args)

/-- C4 witness: with three connections, the middle one non-writable, a
broadcast reaches exactly the two writable ones; a targeted send reaches
its writable target. -/
theorem claimC4Witness :
    (pubSend false c4Socks [PubArg.data 7]).writes =
      ((c4Socks.filter fun s => s.writable).map fun s =>
        (s.id, pack false [PubArg.data 7]))
    ∧ (pubSend false [] [PubArg.data 7,
        PubArg.conn { id := 5, writable := true }]).writes =
      (if (Conn.mk 5 true).writable then
        [(5, pack false [PubArg.data 7,
          PubArg.conn { id := 5, writable := true }])]
       else []) :=
  ⟨(claimC4 false c4Socks [PubArg.data 7]).2.1 (by decide),
   (claimC4 false [] [PubArg.data 7,
      PubArg.conn { id := 5, writable := true }]).1
     { id := 5, writable := true } (by decide)⟩

/-! ### Claim C9: the targeted connection rides inside the packed frame -/

/-- C9: in the targeted-unicast case the argument list handed to
`this.pack` still carries the connection object as its last element, so the
serialized frame contains it as an extra final part. -/
theorem claimC9 (dz : Bool) (socks : List Conn) (args : List PubArg)
    (c : Conn) (h : lastArgConn args = some c) :
    (pubSend dz socks args).packedArgs = [args]
    ∧ args.getLast? = some (PubArg.conn c)
    ∧ encodeFrame args = args.length ::
        ((args.dropLast.map encodePart).flatten ++
          encodePart (PubArg.conn c)) := by
  have hlast : args.getLast? = some (PubArg.conn c) := by
    unfold lastArgConn at h
    cases hg : args.getLast? with
    | none =>
      rw [hg] at h
      exact absurd h (by simp)
    | some a =>
      cases a with
      | data n =>
        rw [hg] at h
        exact absurd h (by simp)
      | conn c2 =>
        rw [hg] at h
        simp only [Option.some.injEq] at h
        rw [h]
  have hne : args ≠ [] := by
    intro he
    rw [he] at hlast
    exact absurd hlast (by simp)
  have hsplit : args = args.dropLast ++ [PubArg.conn c] := by
    have hd := List.dropLast_append_getLast hne
    have hg : args.getLast hne = PubArg.conn c := by
      have := List.getLast?_eq_getLast args hne
      rw [this] at hlast
      exact Option.some.inj hlast
    rw [hg] at hd
    exact hd.symm
  refine ⟨rfl, hlast, ?_⟩
  conv_lhs => rw [hsplit]
  rw [show args.length = (args.dropLast ++ [PubArg.conn c]).length by
    rw [← hsplit]]
  simp [encodeFrame]

/-- C9 witness: the serialized frame of a targeted send carries the
connection as its final part. -/
theorem claimC9Witness :
    (pubSend false [] [PubArg.data 7,
        PubArg.conn { id := 3, writable := true }]).packedArgs =
      [[PubArg.data 7, PubArg.conn { id := 3, writable := true }]]
    ∧ [PubArg.data 7, PubArg.conn { id := 3, writable := true }].getLast? =
      some (PubArg.conn { id := 3, writable := true })
    ∧ encodeFrame [PubArg.data 7,
        PubArg.conn { id := 3, writable := true }] =
      [PubArg.data 7, PubArg.conn { id := 3, writable := true }].length ::
        (([PubArg.data 7,
            PubArg.conn { id := 3, writable := true }].dropLast.map
          encodePart).flatten ++
          encodePart (PubArg.conn { id := 3, writable := true })) :=
  claimC9 false [] [PubArg.data 7, PubArg.conn { id := 3, writable := true }]
    { id := 3, writable := true } (by decide)

/-! ### Claim C8: per-message gzip members, not one streaming compressor -/

/-- C8 counterexample: two sends of one-part frames to a single writable
connection produce two independent gzip members, not one compressed
envelope spanning the concatenated frames as the claim requires. -/
theorem counterC8 :
    ¬ (connectionOutbound false { id := 0, writable := true }
        [[PubArg.data 1], [PubArg.data 2]] =
      streamCompressSpec
        (([[PubArg.data 1], [PubArg.data 2]].map encodeFrame).flatten)) := by
  decide

lemma connectionOutbound_eq (c : Conn) (hw : c.writable = true) :
    ∀ sends : List (List PubArg),
    (∀ args ∈ sends, lastArgConn args = none) →
    connectionOutbound false c sends =
      (sends.map fun args => gzipSync (encodeFrame args)).flatten := by
  intro sends
  induction sends with
  | nil => intro _; rfl
  | cons args rest ih =>
    intro hargs
    have hhead : lastArgConn args = none := hargs args (by simp)
    have htail : ∀ a ∈ rest, lastArgConn a = none := fun a ha =>
      hargs a (by simp [ha])
    have h1 : (pubSend false [c] args).writes = [(c.id, pack false args)] := by
      simp only [pubSend, hhead]
      rw [show ([c] : List Conn).length = [c].length from rfl, sendLoopWrites]
      simp [List.filter_cons, hw]
    simp only [connectionOutbound, List.map_cons, List.flatten_cons] at ih ⊢
    rw [h1]
    rw [ih htail]
    simp [pack, gzipSync]

/-- C8 amended: the outbound compression is per message — each `send` packs
its frame with a one-shot `zlib.gzipSync`, and a connection's outbound byte
stream is the concatenation of one self-contained gzip member per message —
while the receive side attaches exactly one streaming gunzip stage per
connection. -/
theorem claimC8 (sends : List (List PubArg)) (c : Conn)
    (hw : c.writable = true)
    (hargs : ∀ args ∈ sends, lastArgConn args = none) :
    connectionOutbound false c sends =
      (sends.map fun args => gzipSync (encodeFrame args)).flatten
    ∧ (pipelineStages false).count Stage.gunzip = 1 :=
  ⟨connectionOutbound_eq c hw sends hargs, rfl⟩

/-- C8 witness: two plain messages to one writable connection. -/
theorem claimC8Witness :
    connectionOutbound false { id := 0, writable := true }
        [[PubArg.data 1], [PubArg.data 2]] =
      (([[PubArg.data 1], [PubArg.data 2]].map fun args =>
        gzipSync (encodeFrame args)).flatten)
    ∧ (pipelineStages false).count Stage.gunzip = 1 :=
  claimC8 [[PubArg.data 1], [PubArg.data 2]] { id := 0, writable := true }
    (by decide) (by decide)

end Axon
